import Mathlib

/-!
Verification of the protection-transition driver in `src/main.rs`.

The program is a single linear protocol over one 4096-byte memory region:
reserve+commit read-write, write 64 benign bytes, flip protection to
read-execute, flip back to read-write, release.  Every OS interaction is one
of three Windows primitives (`VirtualAlloc`, `VirtualProtect`, `VirtualFree`);
the program's behaviour is a pure function of the results those primitives
return.  We embed the program as an interpreter `run` over an `OSBehavior`
record that supplies those results, recording the observable outputs: stdout
lines, memory writes, the OS call trace with grant outcomes, and the exit
value.
-/

/-- Windows page-protection constant `PAGE_READWRITE` (0x04). -/
def PAGE_READWRITE : Nat := 0x04

/-- Windows page-protection constant `PAGE_EXECUTE_READ` (0x20). -/
def PAGE_EXECUTE_READ : Nat := 0x20

/-- Region size fixed by the source: `let size: usize = 4096;`. -/
def regionSize : Nat := 4096

/-- Results the OS primitives return during one run.  `allocResult` is the
pointer returned by `VirtualAlloc` (0 models the null pointer).  The two
`VirtualProtect` calls each return a success flag and write the previous
protection value into their out-parameter on success.  At most one
`VirtualFree` call executes in any run (cleanup on a failed transition, or the
final step-5 free); `freeOk` is the OS response to that single call. -/
structure OSBehavior where
  allocResult : Nat
  protRXOk : Bool
  protRXOld : Nat
  protRWOk : Bool
  protRWOld : Nat
  freeOk : Bool

/-- Stdout lines of the program, one constructor per `println!` site, carrying
the data interpolated at that site. -/
inductive Line where
  | allocated (size addr : Nat)
  | wroteBytes (n : Nat)
  | protChangedRWtoRX (old : Nat)
  | protRevertedRXtoRW (old : Nat)
  | freedRegion
  | windowsOnly
deriving DecidableEq

/-- Errors the program can bail with, one constructor per `bail!` site. -/
inductive ProbeError where
  | allocFailed
  | protRXFailed
  | protRWFailed
  | freeFailed
deriving DecidableEq

/-- Message text of each `bail!` site, printed by the runtime on a non-zero
exit. -/
def messageOf : ProbeError → String
  | ProbeError.allocFailed => "VirtualAlloc failed (null pointer returned)"
  | ProbeError.protRXFailed => "VirtualProtect RW->RX failed"
  | ProbeError.protRWFailed => "VirtualProtect RX->RW failed"
  | ProbeError.freeFailed => "VirtualFree failed"

/-- One OS memory-management call, with the arguments the program passed and
whether the OS granted it. -/
inductive OsCall where
  | virtualAlloc (size prot : Nat) (granted : Bool)
  | virtualProtect (addr size prot : Nat) (granted : Bool)
  | virtualFree (addr : Nat) (granted : Bool)
deriving DecidableEq

/-- Abstract protection modes of the region, as named by the specification. -/
inductive Mode where
  | Unallocated
  | ReadWrite
  | ReadExecute
  | Released
deriving DecidableEq

/-- Everything observable about one run: stdout lines in order, the byte
writes performed (offset, value), the OS call trace in order, and the exit
value (`Except.error e` makes the process print `messageOf e` and exit 1). -/
structure RunResult where
  lines : List Line
  writes : List (Nat × Nat)
  calls : List OsCall
  exit : Except ProbeError Unit

/-- Process exit status: 0 on `Ok(())`, 1 when `main` returns an error. -/
def exitCode (r : RunResult) : Nat :=
  match r.exit with
  | Except.ok _ => 0
  | Except.error _ => 1

/-- Errors the run surfaces to the user (the single error `main` returns, if
any; the program has no other error channel). -/
def reportedErrors (r : RunResult) : List ProbeError :=
  match r.exit with
  | Except.ok _ => []
  | Except.error e => [e]

/-- The byte writes of step 2: `for (i, b) in buf.iter_mut().enumerate().take(64)
{ *b = (b'A' + (i as u8 % 26)) as u8; }`.  Arithmetic is u8 arithmetic, hence
the `% 256` reductions. -/
def populateWrites : List (Nat × Nat) :=
  (List.range 64).map (fun i => (i, (65 + (i % 256) % 26) % 256))

/-- The Windows main (`src/main.rs` lines 21-81), as a function of the OS
primitive results.  `args` and `env` are the process arguments and
environment; the source never reads either, so they bind no behaviour. -/
def run (args : List String) (env : List (String × String)) (os : OSBehavior) :
    RunResult :=
  -- 1) VirtualAlloc(null, 4096, MEM_COMMIT|MEM_RESERVE, PAGE_READWRITE)
  let p := os.allocResult
  if p = 0 then
    -- bail!("VirtualAlloc failed (null pointer returned)")
    { lines := []
      writes := []
      calls := [OsCall.virtualAlloc regionSize PAGE_READWRITE false]
      exit := Except.error ProbeError.allocFailed }
  else
    -- 2) write 64 benign bytes, then 3) VirtualProtect(p, 4096, PAGE_EXECUTE_READ)
    if os.protRXOk then
      -- 4) VirtualProtect(p, 4096, PAGE_READWRITE)
      if os.protRWOk then
        -- 5) VirtualFree(p, 0, MEM_RELEASE)
        if os.freeOk then
          { lines := [Line.allocated regionSize p, Line.wroteBytes 64,
              Line.protChangedRWtoRX os.protRXOld,
              Line.protRevertedRXtoRW os.protRWOld, Line.freedRegion]
            writes := populateWrites
            calls := [OsCall.virtualAlloc regionSize PAGE_READWRITE true,
              OsCall.virtualProtect p regionSize PAGE_EXECUTE_READ true,
              OsCall.virtualProtect p regionSize PAGE_READWRITE true,
              OsCall.virtualFree p true]
            exit := Except.ok () }
        else
          -- bail!("VirtualFree failed")
          { lines := [Line.allocated regionSize p, Line.wroteBytes 64,
              Line.protChangedRWtoRX os.protRXOld,
              Line.protRevertedRXtoRW os.protRWOld]
            writes := populateWrites
            calls := [OsCall.virtualAlloc regionSize PAGE_READWRITE true,
              OsCall.virtualProtect p regionSize PAGE_EXECUTE_READ true,
              OsCall.virtualProtect p regionSize PAGE_READWRITE true,
              OsCall.virtualFree p false]
            exit := Except.error ProbeError.freeFailed }
      else
        -- VirtualFree(p, 0, MEM_RELEASE); (result discarded)
        -- bail!("VirtualProtect RX->RW failed")
        { lines := [Line.allocated regionSize p, Line.wroteBytes 64,
            Line.protChangedRWtoRX os.protRXOld]
          writes := populateWrites
          calls := [OsCall.virtualAlloc regionSize PAGE_READWRITE true,
            OsCall.virtualProtect p regionSize PAGE_EXECUTE_READ true,
            OsCall.virtualProtect p regionSize PAGE_READWRITE false,
            OsCall.virtualFree p os.freeOk]
          exit := Except.error ProbeError.protRWFailed }
    else
      -- VirtualFree(p, 0, MEM_RELEASE); (result discarded)
      -- bail!("VirtualProtect RW->RX failed")
      { lines := [Line.allocated regionSize p, Line.wroteBytes 64]
        writes := populateWrites
        calls := [OsCall.virtualAlloc regionSize PAGE_READWRITE true,
          OsCall.virtualProtect p regionSize PAGE_EXECUTE_READ false,
          OsCall.virtualFree p os.freeOk]
        exit := Except.error ProbeError.protRXFailed }

/-- The non-Windows main (`src/main.rs` lines 83-86): print one line, do
nothing else, exit 0. -/
def runNonWindows : RunResult :=
  { lines := [Line.windowsOnly]
    writes := []
    calls := []
    exit := Except.ok () }

/-- Protection values requested from the OS: the `flProtect` argument of each
`VirtualAlloc`/`VirtualProtect` call (`VirtualFree` takes none). -/
def requestedProts (calls : List OsCall) : List Nat :=
  calls.filterMap fun c =>
    match c with
    | OsCall.virtualAlloc _ prot _ => some prot
    | OsCall.virtualProtect _ _ prot _ => some prot
    | OsCall.virtualFree _ _ => none

/-- Whether a Windows page-protection constant permits writing, per the
Windows API: PAGE_READWRITE (0x04), PAGE_WRITECOPY (0x08),
PAGE_EXECUTE_READWRITE (0x40), PAGE_EXECUTE_WRITECOPY (0x80). -/
def permitsWrite (prot : Nat) : Bool :=
  prot == 0x04 || prot == 0x08 || prot == 0x40 || prot == 0x80

/-- Whether a Windows page-protection constant permits execution, per the
Windows API: PAGE_EXECUTE (0x10), PAGE_EXECUTE_READ (0x20),
PAGE_EXECUTE_READWRITE (0x40), PAGE_EXECUTE_WRITECOPY (0x80). -/
def permitsExecute (prot : Nat) : Bool :=
  prot == 0x10 || prot == 0x20 || prot == 0x40 || prot == 0x80

/-- Abstract mode a granted protection value puts the region in. -/
def modeOfProt (prot : Nat) : Option Mode :=
  if prot = PAGE_READWRITE then some Mode.ReadWrite
  else if prot = PAGE_EXECUTE_READ then some Mode.ReadExecute
  else none

/-- The region's successive protection modes over a run: each granted
allocation or protection change puts the region in the mode of its requested
protection value; a granted free puts it in `Released`.  Denied calls leave
the mode unchanged and contribute nothing. -/
def grantedModes (calls : List OsCall) : List Mode :=
  calls.filterMap fun c =>
    match c with
    | OsCall.virtualAlloc _ prot true => modeOfProt prot
    | OsCall.virtualProtect _ _ prot true => modeOfProt prot
    | OsCall.virtualFree _ true => some Mode.Released
    | _ => none

/-- The five protocol steps, in source order. -/
inductive Step where
  | alloc
  | write
  | protRX
  | protRW
  | free
deriving DecidableEq

/-- Modelled from the spec: whether each step succeeds, given the OS results
(the write step has no failure path). -/
def stepOk (os : OSBehavior) : Step → Bool
  | Step.alloc => os.allocResult != 0
  | Step.write => true
  | Step.protRX => os.protRXOk
  | Step.protRW => os.protRWOk
  | Step.free => os.freeOk

/-- Modelled from the spec: the one progress line each successful step
prints. -/
def stepLine (os : OSBehavior) : Step → Line
  | Step.alloc => Line.allocated regionSize os.allocResult
  | Step.write => Line.wroteBytes 64
  | Step.protRX => Line.protChangedRWtoRX os.protRXOld
  | Step.protRW => Line.protRevertedRXtoRW os.protRWOld
  | Step.free => Line.freedRegion

/-- Modelled from the spec: the protocol order of the five steps. -/
def protocolSteps : List Step :=
  [Step.alloc, Step.write, Step.protRX, Step.protRW, Step.free]

/-- Any protection value a run requests from the OS is `PAGE_READWRITE` or
`PAGE_EXECUTE_READ`. -/
theorem mem_requestedProts_run (args : List String)
    (env : List (String × String)) (os : OSBehavior) (prot : Nat)
    (hp : prot ∈ requestedProts (run args env os).calls) :
    prot = PAGE_READWRITE ∨ prot = PAGE_EXECUTE_READ := by
  by_cases ha : os.allocResult = 0 <;> cases hrx : os.protRXOk <;>
    cases hrw : os.protRWOk <;> cases hf : os.freeOk <;>
    simp [run, ha, hrx, hrw, hf, requestedProts, PAGE_READWRITE,
      PAGE_EXECUTE_READ] at hp ⊢ <;> omega

/-- C1: at no point in any run is a protection mode requested that permits
both write and execute: every protection value passed to the OS is
`PAGE_READWRITE` or `PAGE_EXECUTE_READ`, and neither permits write and
execute simultaneously. -/
theorem no_wx_mode_ever_requested (args : List String)
    (env : List (String × String)) (os : OSBehavior) (prot : Nat)
    (hp : prot ∈ requestedProts (run args env os).calls) :
    (prot = PAGE_READWRITE ∨ prot = PAGE_EXECUTE_READ) ∧
      ¬(permitsWrite prot = true ∧ permitsExecute prot = true) := by
  have h := mem_requestedProts_run args env os prot hp
  refine ⟨h, ?_⟩
  rcases h with h | h <;> subst h <;> decide

/-- Witness for C1: in a fully successful run, `PAGE_READWRITE` is among the
requested protections, and it is not a write-and-execute mode. -/
theorem no_wx_mode_ever_requested_witness :
    (PAGE_READWRITE ∈
      requestedProts (run [] [] ⟨1, true, 4, true, 32, true⟩).calls) ∧
    ((PAGE_READWRITE = PAGE_READWRITE ∨ PAGE_READWRITE = PAGE_EXECUTE_READ) ∧
      ¬(permitsWrite PAGE_READWRITE = true ∧
        permitsExecute PAGE_READWRITE = true)) :=
  ⟨by decide,
    no_wx_mode_ever_requested [] [] ⟨1, true, 4, true, 32, true⟩
      PAGE_READWRITE (by decide)⟩

/-- C2: in every run in which all five steps succeed, the region's sequence of
protection-mode transitions is exactly ReadWrite, ReadExecute, ReadWrite,
Released, in that order, nothing skipped or reordered. -/
theorem successful_run_mode_sequence (args : List String)
    (env : List (String × String)) (os : OSBehavior)
    (h1 : os.allocResult ≠ 0) (h2 : os.protRXOk = true)
    (h3 : os.protRWOk = true) (h4 : os.freeOk = true) :
    grantedModes (run args env os).calls =
      [Mode.ReadWrite, Mode.ReadExecute, Mode.ReadWrite, Mode.Released] := by
  simp [run, h1, h2, h3, h4, grantedModes, modeOfProt, PAGE_READWRITE,
    PAGE_EXECUTE_READ]

/-- Witness for C2: a concrete fully successful run realises the protocol mode
sequence. -/
theorem successful_run_mode_sequence_witness :
    grantedModes (run [] [] ⟨1, true, 4, true, 32, true⟩).calls =
      [Mode.ReadWrite, Mode.ReadExecute, Mode.ReadWrite, Mode.Released] :=
  successful_run_mode_sequence [] [] ⟨1, true, 4, true, 32, true⟩
    (by decide) rfl rfl rfl

/-- C3: in every run in which allocation succeeds but one of the two
protection transitions fails, a release of the region is attempted (a
`VirtualFree` call appears in the OS call trace) and the process exits
non-zero. -/
theorem transition_failure_releases_region (args : List String)
    (env : List (String × String)) (os : OSBehavior)
    (h1 : os.allocResult ≠ 0)
    (h2 : os.protRXOk = false ∨ (os.protRXOk = true ∧ os.protRWOk = false)) :
    OsCall.virtualFree os.allocResult os.freeOk ∈ (run args env os).calls ∧
      exitCode (run args env os) ≠ 0 := by
  rcases h2 with h2 | ⟨h2, h3⟩
  · simp [run, h1, h2, exitCode]
  · simp [run, h1, h2, h3, exitCode]

/-- Witness for C3: a concrete run whose RW→RX transition fails attempts the
cleanup release and exits non-zero. -/
theorem transition_failure_releases_region_witness :
    OsCall.virtualFree 1 true ∈ (run [] [] ⟨1, false, 4, true, 32, true⟩).calls ∧
      exitCode (run [] [] ⟨1, false, 4, true, 32, true⟩) ≠ 0 :=
  transition_failure_releases_region [] [] ⟨1, false, 4, true, 32, true⟩
    (by decide) (Or.inl rfl)

/-- C4 counterexample: in the concrete run where allocation succeeds, the
RW→RX transition fails, and the best-effort cleanup release also fails, the
release failure is not among the reported errors — the source discards the
`VirtualFree` result on the cleanup path, so the claim as stated is false. -/
theorem release_failure_not_reported_counterexample :
    ((⟨1, false, 4, true, 32, false⟩ : OSBehavior).protRXOk = false ∧
     (⟨1, false, 4, true, 32, false⟩ : OSBehavior).freeOk = false ∧
     (⟨1, false, 4, true, 32, false⟩ : OSBehavior).allocResult ≠ 0) ∧
    (OsCall.virtualFree 1 false ∈
      (run [] [] ⟨1, false, 4, true, 32, false⟩).calls) ∧
    ProbeError.freeFailed ∉
      reportedErrors (run [] [] ⟨1, false, 4, true, 32, false⟩) := by decide

/-- C4 amended: when a protection transition fails, the cleanup release is
attempted but its outcome is discarded; only the transition failure is
reported (primary error), and a failure of the cleanup release is never
reported. -/
theorem transition_failure_reporting (args : List String)
    (env : List (String × String)) (os : OSBehavior)
    (h1 : os.allocResult ≠ 0)
    (h2 : os.protRXOk = false ∨ (os.protRXOk = true ∧ os.protRWOk = false)) :
    OsCall.virtualFree os.allocResult os.freeOk ∈ (run args env os).calls ∧
    ProbeError.freeFailed ∉ reportedErrors (run args env os) ∧
    (reportedErrors (run args env os) = [ProbeError.protRXFailed] ∨
     reportedErrors (run args env os) = [ProbeError.protRWFailed]) := by
  rcases h2 with h2 | ⟨h2, h3⟩
  · simp [run, h1, h2, reportedErrors]
  · simp [run, h1, h2, h3, reportedErrors]

/-- Witness for the amended C4: a concrete run where both the RW→RX
transition and the cleanup release fail reports only the transition
failure. -/
theorem transition_failure_reporting_witness :
    OsCall.virtualFree 1 false ∈
      (run [] [] ⟨1, false, 4, true, 32, false⟩).calls ∧
    ProbeError.freeFailed ∉
      reportedErrors (run [] [] ⟨1, false, 4, true, 32, false⟩) ∧
    (reportedErrors (run [] [] ⟨1, false, 4, true, 32, false⟩) =
        [ProbeError.protRXFailed] ∨
     reportedErrors (run [] [] ⟨1, false, 4, true, 32, false⟩) =
        [ProbeError.protRWFailed]) :=
  transition_failure_reporting [] [] ⟨1, false, 4, true, 32, false⟩
    (by decide) (Or.inl rfl)

/-- C5: in every run in which allocation succeeds, the populate step performs
exactly 64 writes, every write lands at an offset below 64 (hence below the
region size 4096), the byte written at offset i is 65 + i % 26 (ASCII `A`
cycled through `Z`), and every offset below 64 receives exactly that byte. -/
theorem populate_write_containment (args : List String)
    (env : List (String × String)) (os : OSBehavior)
    (h : os.allocResult ≠ 0) :
    (run args env os).writes.length = 64 ∧
    (∀ w ∈ (run args env os).writes,
        w.1 < 64 ∧ w.1 < regionSize ∧ w.2 = 65 + w.1 % 26) ∧
    (∀ i < 64, (i, 65 + i % 26) ∈ (run args env os).writes) := by
  have hw : (run args env os).writes = populateWrites := by
    cases hrx : os.protRXOk <;> cases hrw : os.protRWOk <;>
      cases hf : os.freeOk <;> simp [run, h, hrx, hrw, hf]
  rw [hw]
  decide

/-- Witness for C5: the populate-step properties hold on a concrete
successful run. -/
theorem populate_write_containment_witness :
    (run [] [] ⟨1, true, 4, true, 32, true⟩).writes.length = 64 ∧
    (∀ w ∈ (run [] [] ⟨1, true, 4, true, 32, true⟩).writes,
        w.1 < 64 ∧ w.1 < regionSize ∧ w.2 = 65 + w.1 % 26) ∧
    (∀ i < 64,
        (i, 65 + i % 26) ∈ (run [] [] ⟨1, true, 4, true, 32, true⟩).writes) :=
  populate_write_containment [] [] ⟨1, true, 4, true, 32, true⟩ (by decide)

/-- C6: every run exits 0 exactly when all five steps (allocation, the two
transitions, and the final release) succeed, and otherwise exits non-zero
carrying a non-empty descriptive error message. -/
theorem exit_status_policy (args : List String)
    (env : List (String × String)) (os : OSBehavior) :
    (exitCode (run args env os) = 0 ↔
      (os.allocResult ≠ 0 ∧ os.protRXOk = true ∧ os.protRWOk = true ∧
        os.freeOk = true)) ∧
    (exitCode (run args env os) = 0 ∨
      ∃ e, (run args env os).exit = Except.error e ∧
        0 < (messageOf e).length) := by
  by_cases ha : os.allocResult = 0
  · exact ⟨by simp [run, ha, exitCode],
      Or.inr ⟨ProbeError.allocFailed, by simp [run, ha], by decide⟩⟩
  · cases hrx : os.protRXOk
    · exact ⟨by simp [run, ha, hrx, exitCode],
        Or.inr ⟨ProbeError.protRXFailed, by simp [run, ha, hrx], by decide⟩⟩
    · cases hrw : os.protRWOk
      · exact ⟨by simp [run, ha, hrx, hrw, exitCode],
          Or.inr ⟨ProbeError.protRWFailed, by simp [run, ha, hrx, hrw],
            by decide⟩⟩
      · cases hf : os.freeOk
        · exact ⟨by simp [run, ha, hrx, hrw, hf, exitCode],
            Or.inr ⟨ProbeError.freeFailed, by simp [run, ha, hrx, hrw, hf],
              by decide⟩⟩
        · exact ⟨by simp [run, ha, hrx, hrw, hf, exitCode],
            Or.inl (by simp [run, ha, hrx, hrw, hf, exitCode])⟩

/-- C7: in every run in which the OS returns a null handle from allocation,
the program fails with the allocation error, performs no write, and issues no
further OS call: the call trace is exactly the single denied allocation, so
no protection change and no release is ever attempted. -/
theorem allocation_failure_halts_immediately (args : List String)
    (env : List (String × String)) (os : OSBehavior)
    (h : os.allocResult = 0) :
    (run args env os).exit = Except.error ProbeError.allocFailed ∧
    (run args env os).writes = [] ∧
    (run args env os).lines = [] ∧
    (run args env os).calls =
      [OsCall.virtualAlloc regionSize PAGE_READWRITE false] ∧
    exitCode (run args env os) = 1 := by
  simp [run, h, exitCode]

/-- Witness for C7: the concrete null-allocation run halts with the
allocation error and touches nothing. -/
theorem allocation_failure_halts_immediately_witness :
    (run [] [] ⟨0, true, 4, true, 32, true⟩).exit =
      Except.error ProbeError.allocFailed ∧
    (run [] [] ⟨0, true, 4, true, 32, true⟩).writes = [] ∧
    (run [] [] ⟨0, true, 4, true, 32, true⟩).lines = [] ∧
    (run [] [] ⟨0, true, 4, true, 32, true⟩).calls =
      [OsCall.virtualAlloc regionSize PAGE_READWRITE false] ∧
    exitCode (run [] [] ⟨0, true, 4, true, 32, true⟩) = 1 :=
  allocation_failure_halts_immediately [] [] ⟨0, true, 4, true, 32, true⟩ rfl

/-- C8: on a platform lacking the required memory API, the run prints exactly
one explanatory line, makes no OS memory call, writes no byte, and exits with
status zero. -/
theorem non_windows_is_noop :
    runNonWindows.lines = [Line.windowsOnly] ∧
    runNonWindows.lines.length = 1 ∧
    runNonWindows.calls = [] ∧
    runNonWindows.writes = [] ∧
    exitCode runNonWindows = 0 := by
  decide

/-- C9: the stdout lines of any run are exactly one progress line per
successful step, in protocol order, stopping at the first failed step (a
failed step prints no success line); in a fully successful run this is the
five success lines in order. -/
theorem progress_lines_match_steps (args : List String)
    (env : List (String × String)) (os : OSBehavior) :
    (run args env os).lines =
      (protocolSteps.takeWhile (stepOk os)).map (stepLine os) := by
  by_cases ha : os.allocResult = 0 <;> cases hrx : os.protRXOk <;>
    cases hrw : os.protRWOk <;> cases hf : os.freeOk <;>
    simp [run, ha, hrx, hrw, hf, protocolSteps, stepOk, stepLine,
      List.takeWhile_cons]

/-- C10: the program consults no arguments, environment variables, or other
input: two runs that see identical OS primitive results produce identical
observable behaviour (same writes, same stdout lines, same OS calls, same
exit value) regardless of the process arguments and environment. -/
theorem run_independent_of_input (os : OSBehavior) (args₁ : List String)
    (env₁ : List (String × String)) (args₂ : List String)
    (env₂ : List (String × String)) :
    run args₁ env₁ os = run args₂ env₂ os := rfl
